import Mathlib

/-!
Verification of the goiabada authorization-server repository layer and
seeding logic against its natural-language specification.

The Go source is shallowly embedded: each database table is a list of rows
in insertion order (primary-key `id` ascending, as produced by the
auto-increment column), a GORM `First` query is a `List.find?` over that
order, and a query that can fail at the driver level takes an explicit
`fault : Bool` parameter (the `result.Error != nil && result.Error !=
gorm.ErrRecordNotFound` branch of the Go code).  Functions keep the names
of the Go methods they embed.
-/

namespace Goiabada

/-- Row of the `key_pairs` table (entities.KeyPair), fields used by the
repository layer and the seeder. -/
structure KeyPair where
  id : Nat
  state : String
  keyIdentifier : String
  keyType : String
  algorithm : String
  deriving DecidableEq

/-- Row of the `clients` table (entities.Client).  `permissionIds` models
the `clients_permissions` association rows of this client.  The secret is
stored in the `ClientSecretEncrypted` column, exactly as in the Go entity. -/
structure Client where
  id : Nat
  clientIdentifier : String
  enabled : Bool
  consentRequired : Bool
  isPublic : Bool
  clientSecretEncrypted : String
  permissionIds : List Nat
  deriving DecidableEq

/-- Row of the `redirect_uris` table (entities.RedirectURI). -/
structure RedirectURI where
  id : Nat
  clientId : Nat
  uri : String
  deriving DecidableEq

/-- Row of the `users` table (entities.User), fields relevant to seeding
and lookups. -/
structure User where
  id : Nat
  subject : String
  email : String
  emailVerified : Bool
  passwordHash : String
  enabled : Bool
  deriving DecidableEq

/-- Row of the `permissions` table (entities.Permission). -/
structure Permission where
  id : Nat
  permissionIdentifier : String
  resourceId : Nat
  deriving DecidableEq

/-- Row of the `codes` table (entities.Code).  The `code` column is the
value the repository's `GetCode` filters on; per the Code Issuer it holds
the SHA-256 hash of the plaintext authorization code. -/
structure Code where
  id : Nat
  code : String
  clientId : Nat
  userId : Nat
  used : Bool
  deriving DecidableEq

/-- Row of the `user_consents` table (entities.UserConsent). -/
structure UserConsent where
  id : Nat
  userId : Nat
  clientId : Nat
  scope : String
  deriving DecidableEq

/-- Row of the `user_sessions` table (entities.UserSession). -/
structure UserSession where
  id : Nat
  sessionIdentifier : String
  userId : Nat
  deriving DecidableEq

/-- Modelled from the spec: a RefreshToken row ("jti (unique), user,
client, scope, issued-at, expires-at, revoked?"; "revoked on logout").
The Go source under src has no RefreshToken entity at all (the `migrate`
list in the data package does not mention one), so the entity is taken
from the specification's data model; `sessionIdentifier` records the
session the token was issued under. -/
structure RefreshToken where
  id : Nat
  sessionIdentifier : String
  revoked : Bool
  deriving DecidableEq

/-- Row of the `settings` singleton table (entities.Settings), fields the
claims mention. -/
structure Settings where
  appName : String
  issuer : String
  deriving DecidableEq

/-- The whole database state: one list per table, rows in insertion order. -/
structure Db where
  clients : List Client
  users : List User
  permissions : List Permission
  codes : List Code
  userConsents : List UserConsent
  userSessions : List UserSession
  redirectURIs : List RedirectURI
  keyPairs : List KeyPair
  refreshTokens : List RefreshToken
  settings : List Settings
  deriving DecidableEq

/-- The freshly-migrated, never-seeded database. -/
def emptyDb : Db :=
  { clients := [], users := [], permissions := [], codes := [],
    userConsents := [], userSessions := [], redirectURIs := [],
    keyPairs := [], refreshTokens := [], settings := [] }

/-- `isDbEmpty`: the Go code checks `First(&entities.Settings{})` for
`gorm.ErrRecordNotFound`. -/
def isDbEmpty (db : Db) : Bool :=
  db.settings.isEmpty

/-!
## Repository lookup methods (data package, part_003)

Each Go method runs a `First` query and then branches:
`result.Error != nil && result.Error != gorm.ErrRecordNotFound` returns a
wrapped error; `result.RowsAffected == 0` returns `(nil, nil)`; otherwise
the row is returned.  `fault` is true when the underlying query fails for
a reason other than record-not-found.
-/

/-- `GetClientByClientIdentifier` (part_003): `Where("client_identifier = ?")`. -/
def GetClientByClientIdentifier (fault : Bool) (db : Db) (clientIdentifier : String) :
    Except String (Option Client) :=
  if fault then
    .error "unable to fetch client from database"
  else
    match db.clients.find? (fun c => c.clientIdentifier == clientIdentifier) with
    | none => .ok none
    | some c => .ok (some c)

/-- `GetUserByEmail` (part_003): `Where("email = ?")`. -/
def GetUserByEmail (fault : Bool) (db : Db) (email : String) :
    Except String (Option User) :=
  if fault then
    .error "unable to fetch user from database"
  else
    match db.users.find? (fun u => u.email == email) with
    | none => .ok none
    | some u => .ok (some u)

/-- `GetUserSessionBySessionIdentifier` (part_003): `Where("session_identifier = ?")`. -/
def GetUserSessionBySessionIdentifier (fault : Bool) (db : Db) (sessionIdentifier : String) :
    Except String (Option UserSession) :=
  if fault then
    .error "unable to fetch user session from database"
  else
    match db.userSessions.find? (fun s => s.sessionIdentifier == sessionIdentifier) with
    | none => .ok none
    | some s => .ok (some s)

/-- `GetCode` (part_003): `Where("code = ? and used = ?", code, used).First`. -/
def GetCode (fault : Bool) (db : Db) (code : String) (used : Bool) :
    Except String (Option Code) :=
  if fault then
    .error "unable to fetch code from database"
  else
    match db.codes.find? (fun c => c.code == code && c.used == used) with
    | none => .ok none
    | some c => .ok (some c)

/-- One step of the `Order("Id desc").First` scan: keep the row with the
greater primary key. -/
def maxStep (acc : Option KeyPair) (kp : KeyPair) : Option KeyPair :=
  match acc with
  | none => some kp
  | some m => if m.id < kp.id then some kp else some m

/-- The `Order("Id desc").First` query of `GetSigningKey`: the row with
the greatest primary key (ids are unique, produced by auto-increment). -/
def firstByIdDesc (kps : List KeyPair) : Option KeyPair :=
  kps.foldl maxStep none

/-- `GetSigningKey` (part_003): `Order("Id desc").First(&c) // most recent`.
Note that the query never mentions the `state` column. -/
def GetSigningKey (fault : Bool) (db : Db) : Except String (Option KeyPair) :=
  if fault then
    .error "unable to fetch keypair from database"
  else
    match firstByIdDesc db.keyPairs with
    | none => .ok none
    | some kp => .ok (some kp)

/-- `GetClientById` (part_003): `Where("id = ?").First` with preloaded
associations. -/
def GetClientById (fault : Bool) (db : Db) (id : Nat) : Except String (Option Client) :=
  if fault then
    .error "unable to fetch client from database"
  else
    match db.clients.find? (fun c => c.id == id) with
    | none => .ok none
    | some c => .ok (some c)

/-- `GetPermissionById` (part_003): `Where("id = ?").First`. -/
def GetPermissionById (fault : Bool) (db : Db) (id : Nat) : Except String (Option Permission) :=
  if fault then
    .error "unable to fetch permission from database"
  else
    match db.permissions.find? (fun p => p.id == id) with
    | none => .ok none
    | some p => .ok (some p)

/-!
## Mutating repository operations (data package, part_003)

A `Create` appends a row; a `Save` on a row with a primary key replaces
the row with that key.  Operations built from several statements thread a
fault schedule: each database statement consumes one entry of `faults`
(true means the statement fails, mirroring the `result.Error != nil`
branches of the Go code).
-/

/-- Whether the next database statement of the fault schedule fails (an
exhausted schedule means no further failures). -/
def faultHead : List Bool → Bool
  | [] => false
  | f :: _ => f

/-- The fault schedule after consuming one statement. -/
def faultTail : List Bool → List Bool
  | [] => []
  | _ :: fs => fs

/-- `CreateCode` (part_003): `Create(code)`. -/
def CreateCode (db : Db) (c : Code) : Db :=
  { db with codes := db.codes ++ [c] }

/-- `UpdateCode` (part_003): `Save(code)`, replacing the row with the same id. -/
def UpdateCode (db : Db) (c : Code) : Db :=
  { db with codes := db.codes.map (fun x => if x.id == c.id then c else x) }

/-- `CreateUser` (part_003): `Save(user)` on a fresh row, i.e. insert. -/
def CreateUser (db : Db) (u : User) : Db :=
  { db with users := db.users ++ [u] }

/-- `UpdateUser` (part_003): `Save(user)` on an existing row. -/
def UpdateUser (db : Db) (u : User) : Db :=
  { db with users := db.users.map (fun x => if x.id == u.id then u else x) }

/-- `CreateClient` (part_003): `Create(client)`. -/
def CreateClient (db : Db) (c : Client) : Db :=
  { db with clients := db.clients ++ [c] }

/-- `UpdateClient` (part_003): `Save(client)`. -/
def UpdateClient (db : Db) (c : Client) : Db :=
  { db with clients := db.clients.map (fun x => if x.id == c.id then c else x) }

/-- `CreateUserSession` (part_003): `Save` on a fresh row, i.e. insert. -/
def CreateUserSession (db : Db) (s : UserSession) : Db :=
  { db with userSessions := db.userSessions ++ [s] }

/-- `UpdateUserSession` (part_003): `Save` on an existing row. -/
def UpdateUserSession (db : Db) (s : UserSession) : Db :=
  { db with userSessions := db.userSessions.map (fun x => if x.id == s.id then s else x) }

/-- `SaveUserConsent` (part_003): `Save(userConsent)` — update the row
with that id when it exists, insert otherwise. -/
def SaveUserConsent (db : Db) (uc : UserConsent) : Db :=
  if db.userConsents.any (fun x => x.id == uc.id) then
    { db with userConsents := db.userConsents.map (fun x => if x.id == uc.id then uc else x) }
  else
    { db with userConsents := db.userConsents ++ [uc] }

/-- `DeleteUserConsent` (part_003): `Unscoped().Delete(&entities.UserConsent{}, id)`. -/
def DeleteUserConsent (db : Db) (consentId : Nat) : Db :=
  { db with userConsents := db.userConsents.filter (fun x => x.id != consentId) }

/-- `CreateRedirectURI` (part_003): `Create(redirectURI)`. -/
def CreateRedirectURI (db : Db) (r : RedirectURI) : Db :=
  { db with redirectURIs := db.redirectURIs ++ [r] }

/-- `DeleteRedirectURI` (part_003): `Unscoped().Delete(&entities.RedirectURI{}, id)`. -/
def DeleteRedirectURI (db : Db) (redirectURIId : Nat) : Db :=
  { db with redirectURIs := db.redirectURIs.filter (fun x => x.id != redirectURIId) }

/-- `CreatePermission` (part_003): `Create(permission)`. -/
def CreatePermission (db : Db) (p : Permission) : Db :=
  { db with permissions := db.permissions ++ [p] }

/-- `UpdatePermission` (part_003): `Save(permission)`. -/
def UpdatePermission (db : Db) (p : Permission) : Db :=
  { db with permissions := db.permissions.map (fun x => if x.id == p.id then p else x) }

/-- `DeletePermission` (part_003): raw deletes on the association tables
(for clients, the `clients_permissions` rows) followed by deletion of the
permission row. -/
def DeletePermission (db : Db) (permissionId : Nat) : Db :=
  { db with
    clients := db.clients.map (fun c =>
      { c with permissionIds := c.permissionIds.filter (fun q => q != permissionId) }),
    permissions := db.permissions.filter (fun p => p.id != permissionId) }

/-- `AddClientPermission` (part_003): fetch the client, fetch the
permission, append the association.  A missing client or permission makes
the GORM association call fail. -/
def AddClientPermission (faults : List Bool) (db : Db) (clientId permissionId : Nat) :
    Except String (Db × List Bool) :=
  match GetClientById (faultHead faults) db clientId with
  | .error e => .error e
  | .ok none => .error "unable to append client permission in database"
  | .ok (some _) =>
    match GetPermissionById (faultHead (faultTail faults)) db permissionId with
    | .error e => .error e
    | .ok none => .error "unable to append client permission in database"
    | .ok (some _) =>
      if faultHead (faultTail (faultTail faults)) then
        .error "unable to append client permission in database"
      else
        .ok ({ db with clients := db.clients.map (fun c =>
          if c.id == clientId then
            { c with permissionIds := c.permissionIds ++ [permissionId] }
          else c) }, faultTail (faultTail (faultTail faults)))

/-- `DeleteClientPermission` (part_003): fetch the client, fetch the
permission, delete the association row. -/
def DeleteClientPermission (faults : List Bool) (db : Db) (clientId permissionId : Nat) :
    Except String (Db × List Bool) :=
  match GetClientById (faultHead faults) db clientId with
  | .error e => .error e
  | .ok none => .error "unable to delete client permission from database"
  | .ok (some _) =>
    match GetPermissionById (faultHead (faultTail faults)) db permissionId with
    | .error e => .error e
    | .ok none => .error "unable to delete client permission from database"
    | .ok (some _) =>
      if faultHead (faultTail (faultTail faults)) then
        .error "unable to delete client permission from database"
      else
        .ok ({ db with clients := db.clients.map (fun c =>
          if c.id == clientId then
            { c with permissionIds := c.permissionIds.filter (fun q => q != permissionId) }
          else c) }, faultTail (faultTail (faultTail faults)))

/-- The `for _, permission := range client.Permissions` loop of
`DeleteClient`, calling `DeleteClientPermission` for each association. -/
def deleteClientPermissionsLoop (clientId : Nat) :
    List Nat → List Bool → Db → Except String (Db × List Bool)
  | [], faults, db => .ok (db, faults)
  | pid :: rest, faults, db =>
    match DeleteClientPermission faults db clientId pid with
    | .error e => .error e
    | .ok (db2, faults2) => deleteClientPermissionsLoop clientId rest faults2 db2

/-- Final statement of `DeleteClient` (part_003): delete the client row
itself. -/
def deleteClientRow (faults : List Bool) (db : Db) (clientId : Nat) : Except String Db :=
  if faultHead faults then .error "unable to delete client from database"
  else .ok { db with clients := db.clients.filter (fun c => c.id != clientId) }

/-- The permission-detaching loop of `DeleteClient` followed by the
deletion of the client row. -/
def deleteClientDetach (faults : List Bool) (db : Db) (clientId : Nat) (client : Client) :
    Except String Db :=
  match deleteClientPermissionsLoop clientId client.permissionIds faults db with
  | .error e => .error e
  | .ok (db2, faults2) => deleteClientRow faults2 db2 clientId

/-- `DeleteClient` after its three table deletes: fetch the client (a nil
client makes the following field access panic), detach its permissions,
delete the row. -/
def deleteClientFetch (faults : List Bool) (db : Db) (clientId : Nat) : Except String Db :=
  match GetClientById (faultHead faults) db clientId with
  | .error e => .error e
  | .ok none => .error "runtime error: nil pointer dereference"
  | .ok (some client) => deleteClientDetach (faultTail faults) db clientId client

/-- Third delete of `DeleteClient`: the client's codes. -/
def deleteClientCodes (faults : List Bool) (db : Db) (clientId : Nat) : Except String Db :=
  if faultHead faults then .error "unable to delete codes from database"
  else deleteClientFetch (faultTail faults)
    { db with codes := db.codes.filter (fun c => c.clientId != clientId) } clientId

/-- Second delete of `DeleteClient`: the client's redirect URIs. -/
def deleteClientRedirectURIs (faults : List Bool) (db : Db) (clientId : Nat) : Except String Db :=
  if faultHead faults then .error "unable to delete redirect uris from database"
  else deleteClientCodes (faultTail faults)
    { db with redirectURIs := db.redirectURIs.filter (fun r => r.clientId != clientId) } clientId

/-- `DeleteClient` (part_003): delete the client's user consents, redirect
URIs and codes, detach every permission of the client, then delete the
client row. -/
def DeleteClient (faults : List Bool) (db : Db) (clientId : Nat) : Except String Db :=
  if faultHead faults then .error "unable to delete user consents from database"
  else deleteClientRedirectURIs (faultTail faults)
    { db with userConsents := db.userConsents.filter (fun u => u.clientId != clientId) } clientId

/-!
## Seeding (data package seed, routes.go part of src)

`seed` runs only on an empty database.  The cryptographic library calls it
makes (`lib.HashPassword`, `lib.EncryptText`, `lib.GeneratePrivateKey`,
`uuid.New`) are outside src; they enter the embedding as opaque function
parameters and pre-drawn random values.  Key-material PEM fields are not
modelled (no claim mentions them); the generated `kid` values are.  The
`users_permissions` association of the admin user and the `resources`
table are not modelled (no claim mentions them). -/

/-- The environment variables `seed` reads through viper, plus the base
URL used for the system client's redirect URI. -/
structure SeedEnv where
  baseUrl : String
  adminEmail : String
  adminPassword : String
  deriving DecidableEq

/-- The random values `seed` draws: the AES encryption key, the system
client's secret, the admin user's subject UUID and the two key ids. -/
structure SeedRand where
  encryptionKey : String
  clientSecret : String
  adminSubject : String
  kid1 : String
  kid2 : String
  deriving DecidableEq

/-- The admin user built by `seed`: email and password fall back to the
fixed defaults when the corresponding environment variable is empty; the
password is stored hashed; the account is enabled with the email marked
verified. -/
def seedAdminUser (hashPassword : String → String) (rand : SeedRand) (env : SeedEnv) : User :=
  let adminEmail := if env.adminEmail.length == 0 then "admin@example.com" else env.adminEmail
  let adminPassword := if env.adminPassword.length == 0 then "admin123" else env.adminPassword
  { id := 1, subject := rand.adminSubject, email := adminEmail,
    emailVerified := true, passwordHash := hashPassword adminPassword,
    enabled := true }

/-- The `current` KeyPair `seed` creates first. -/
def seedKeyPairCurrent (rand : SeedRand) : KeyPair :=
  { id := 1, state := "current", keyIdentifier := rand.kid1,
    keyType := "RSA", algorithm := "RS256" }

/-- The `next` KeyPair `seed` creates second. -/
def seedKeyPairNext (rand : SeedRand) : KeyPair :=
  { id := 2, state := "next", keyIdentifier := rand.kid2,
    keyType := "RSA", algorithm := "RS256" }

/-- The `system-website` client `seed` creates, with its secret stored in
the `client_secret_encrypted` column as `EncryptText(secret, aesKey)`. -/
def seedSystemClient (encryptText : String → String → String) (rand : SeedRand) : Client :=
  { id := 1, clientIdentifier := "system-website", enabled := true,
    consentRequired := false, isPublic := false,
    clientSecretEncrypted := encryptText rand.clientSecret rand.encryptionKey,
    permissionIds := [] }

/-- `seed` (data package): on an empty database create the system client
with its redirect URI, the three system permissions, the admin user, the
`current` and `next` RSA KeyPairs and the settings singleton; otherwise do
nothing. -/
def seed (hashPassword : String → String) (encryptText : String → String → String)
    (rand : SeedRand) (env : SeedEnv) (db : Db) : Db :=
  if isDbEmpty db then
    { db with
      clients := db.clients ++ [seedSystemClient encryptText rand],
      redirectURIs := db.redirectURIs ++
        [{ id := 1, clientId := 1, uri := env.baseUrl ++ "/auth/callback" }],
      permissions := db.permissions ++
        [{ id := 1, permissionIdentifier := "account", resourceId := 1 },
         { id := 2, permissionIdentifier := "admin-website", resourceId := 1 },
         { id := 3, permissionIdentifier := "admin-rest-api", resourceId := 1 }],
      users := db.users ++ [seedAdminUser hashPassword rand env],
      keyPairs := db.keyPairs ++ [seedKeyPairCurrent rand, seedKeyPairNext rand],
      settings := db.settings ++ [{ appName := "Goiabada", issuer := "https://goiabada.dev" }] }
  else db

/-!
## Logout handler (handler_account_logout.go)

The Go handler reads the session identifier from the request context,
looks the session up, deletes the row when it exists, clears the cookie
session values, and redirects to `baseUrl + "/account/profile"`.  The
database-error branches of the handler return an internal-server-error
response without touching any state; the embedding covers the fault-free
path (`fault = false` on the repository calls the handler makes).  Note
that the handler never reads any query parameter of the request and never
touches any table other than `user_sessions`.
-/

/-- `DeleteUserSession` (part_003): `Unscoped().Delete(&entities.UserSession{}, id)`. -/
def DeleteUserSession (db : Db) (userSessionId : Nat) : Db :=
  { db with userSessions := db.userSessions.filter (fun s => s.id != userSessionId) }

/-- The request data reaching `handleAccountLogoutGet`: the session
identifier placed in the context by the session middleware (empty string
when absent), and the `post_logout_redirect_uri` query parameter the spec
documents for `GET /auth/logout`. -/
structure LogoutRequest where
  sessionIdentifier : String
  postLogoutRedirectUri : Option String
  deriving DecidableEq

/-- What the handler produces: the database after handling, whether the
cookie session values were cleared, and the `Location` of the 302. -/
structure HandlerResult where
  db : Db
  cookieSessionCleared : Bool
  redirectLocation : String
  deriving DecidableEq

/-- `handleAccountLogoutGet` (handler_account_logout.go). -/
def handleAccountLogoutGet (baseUrl : String) (req : LogoutRequest) (db : Db) :
    HandlerResult :=
  let db2 :=
    if req.sessionIdentifier.length > 0 then
      match GetUserSessionBySessionIdentifier false db req.sessionIdentifier with
      | .ok (some us) => DeleteUserSession db us.id
      | _ => db
    else db
  { db := db2, cookieSessionCleared := true,
    redirectLocation := baseUrl ++ "/account/profile" }

end Goiabada

namespace Goiabada

/-!
## Helper lemmas about the lookup methods
-/

/-- Fault-free `GetClientByClientIdentifier` returns exactly the first
matching row. -/
theorem getClientByClientIdentifier_ok (db : Db) (cid : String) :
    GetClientByClientIdentifier false db cid =
      .ok (db.clients.find? (fun c => c.clientIdentifier == cid)) := by
  simp only [GetClientByClientIdentifier, Bool.false_eq_true, if_false]
  cases db.clients.find? (fun c => c.clientIdentifier == cid) <;> rfl

/-- Fault-free `GetUserByEmail` returns exactly the first matching row. -/
theorem getUserByEmail_ok (db : Db) (em : String) :
    GetUserByEmail false db em =
      .ok (db.users.find? (fun u => u.email == em)) := by
  simp only [GetUserByEmail, Bool.false_eq_true, if_false]
  cases db.users.find? (fun u => u.email == em) <;> rfl

/-- Fault-free `GetUserSessionBySessionIdentifier` returns exactly the
first matching row. -/
theorem getUserSessionBySessionIdentifier_ok (db : Db) (sid : String) :
    GetUserSessionBySessionIdentifier false db sid =
      .ok (db.userSessions.find? (fun s => s.sessionIdentifier == sid)) := by
  simp only [GetUserSessionBySessionIdentifier, Bool.false_eq_true, if_false]
  cases db.userSessions.find? (fun s => s.sessionIdentifier == sid) <;> rfl

/-- Fault-free `GetCode` returns exactly the first row matching the
`code = ? and used = ?` filter. -/
theorem getCode_ok (db : Db) (code : String) (used : Bool) :
    GetCode false db code used =
      .ok (db.codes.find? (fun c => c.code == code && c.used == used)) := by
  simp only [GetCode, Bool.false_eq_true, if_false]
  cases db.codes.find? (fun c => c.code == code && c.used == used) <;> rfl

/-!
## Helper lemmas about `firstByIdDesc`
-/

/-- The `Order("Id desc").First` scan yields an element of the table. -/
theorem foldlMax_mem (kps : List KeyPair) :
    ∀ (acc : Option KeyPair) (kp : KeyPair),
      kps.foldl maxStep acc = some kp → kp ∈ kps ∨ acc = some kp := by
  induction kps with
  | nil =>
      intro acc kp h
      right
      simpa using h
  | cons x xs ih =>
      intro acc kp h
      rcases ih (maxStep acc x) kp h with hmem | hacc
      · exact Or.inl (List.mem_cons_of_mem _ hmem)
      · cases acc with
        | none =>
            have hx : x = kp := by simpa [maxStep] using hacc
            exact Or.inl (hx ▸ List.mem_cons_self x xs)
        | some m =>
            by_cases hlt : m.id < x.id
            · have hx : x = kp := by simpa [maxStep, hlt] using hacc
              exact Or.inl (hx ▸ List.mem_cons_self x xs)
            · have hm : m = kp := by simpa [maxStep, hlt] using hacc
              exact Or.inr (by rw [hm])

/-- The `Order("Id desc").First` scan yields a row whose id dominates
every row of the table and the accumulator. -/
theorem foldlMax_ge (kps : List KeyPair) :
    ∀ (acc : Option KeyPair) (kp : KeyPair),
      kps.foldl maxStep acc = some kp →
      (∀ x ∈ kps, x.id ≤ kp.id) ∧ (∀ m, acc = some m → m.id ≤ kp.id) := by
  induction kps with
  | nil =>
      intro acc kp h
      refine ⟨by simp, ?_⟩
      intro m hm
      have : acc = some kp := by simpa using h
      rw [this] at hm
      cases hm
      exact le_refl _
  | cons x xs ih =>
      intro acc kp h
      have hstep := ih (maxStep acc x) kp h
      have hx : x.id ≤ kp.id := by
        cases acc with
        | none => exact hstep.2 x rfl
        | some m =>
            by_cases hlt : m.id < x.id
            · exact hstep.2 x (by simp [maxStep, hlt])
            · have hm : m.id ≤ kp.id := hstep.2 m (by simp [maxStep, hlt])
              exact le_trans (Nat.le_of_not_lt hlt) hm
      refine ⟨?_, ?_⟩
      · intro y hy
        rcases List.mem_cons.mp hy with hyx | hyxs
        · rw [hyx]; exact hx
        · exact hstep.1 y hyxs
      · intro m hm
        by_cases hlt : m.id < x.id
        · exact le_trans (Nat.le_of_lt hlt) hx
        · exact hstep.2 m (by simp [maxStep, hm, hlt])

/-! ## C5: tri-state lookup results -/

/-- claim C5 — Every repository lookup method is tri-state: with a failing
query (`fault = true`) it returns an error; with a successful query it
returns exactly the first matching row as an `Option`, so `none` means the
entity does not exist and `some` carries the entity, and the caller can
always distinguish missing from failed.  Stated for the three methods the
claim cites: client by identifier, user by email, session by identifier. -/
theorem C5_repository_tri_state (db : Db) (cid em sid : String) :
    (GetClientByClientIdentifier true db cid = .error "unable to fetch client from database" ∧
     GetClientByClientIdentifier false db cid =
       .ok (db.clients.find? (fun c => c.clientIdentifier == cid))) ∧
    (GetUserByEmail true db em = .error "unable to fetch user from database" ∧
     GetUserByEmail false db em =
       .ok (db.users.find? (fun u => u.email == em))) ∧
    (GetUserSessionBySessionIdentifier true db sid =
       .error "unable to fetch user session from database" ∧
     GetUserSessionBySessionIdentifier false db sid =
       .ok (db.userSessions.find? (fun s => s.sessionIdentifier == sid))) :=
  ⟨⟨rfl, getClientByClientIdentifier_ok db cid⟩,
   ⟨rfl, getUserByEmail_ok db em⟩,
   ⟨rfl, getUserSessionBySessionIdentifier_ok db sid⟩⟩

/-!
## C1: which KeyPair does the signing-key lookup return?

`GetSigningKey` runs `Order("Id desc").First` and never consults the
`state` column, so it returns the most recently created KeyPair, not the
one whose state is `current`.
-/

/-- The `current` KeyPair the seeder creates first (primary key 1). -/
def kpCurrentSeed : KeyPair :=
  { id := 1, state := "current", keyIdentifier := "kid-1",
    keyType := "RSA", algorithm := "RS256" }

/-- The `next` KeyPair the seeder creates second (primary key 2). -/
def kpNextSeed : KeyPair :=
  { id := 2, state := "next", keyIdentifier := "kid-2",
    keyType := "RSA", algorithm := "RS256" }

/-- A database holding exactly the two KeyPairs the seeder leaves behind:
one `current` row (id 1) and one `next` row (id 2). -/
def dbTwoKeys : Db :=
  { emptyDb with keyPairs := [kpCurrentSeed, kpNextSeed] }

/-- claim C1 (counterexample) — In a database state where exactly one
KeyPair has `state = current` (id 1) and one `next` KeyPair was created
after it (id 2), `GetSigningKey` returns the `next` KeyPair, not the
`current` one: the claim that the signing-key lookup returns the `current`
KeyPair regardless of row-creation order is false. -/
theorem C1_counterexample :
    (dbTwoKeys.keyPairs.filter (fun k => k.state == "current")).length = 1 ∧
    GetSigningKey false dbTwoKeys = .ok (some kpNextSeed) ∧
    kpNextSeed.state ≠ "current" :=
  ⟨rfl, rfl, by decide⟩

/-- claim C1 (amended) — The signing-key lookup returns the most recently
created KeyPair: whenever `GetSigningKey` (fault-free) returns a KeyPair,
that KeyPair is a row of the `key_pairs` table and its primary key
dominates every row of the table, irrespective of the rows' `state`
values. -/
theorem C1_signing_key_is_most_recent (db : Db) (kp : KeyPair)
    (h : GetSigningKey false db = .ok (some kp)) :
    kp ∈ db.keyPairs ∧ ∀ x ∈ db.keyPairs, x.id ≤ kp.id := by
  have h2 : (match firstByIdDesc db.keyPairs with
      | none => (Except.ok none : Except String (Option KeyPair))
      | some m => Except.ok (some m)) = Except.ok (some kp) := h
  cases hf : firstByIdDesc db.keyPairs with
  | none =>
      rw [hf] at h2
      cases h2
  | some m =>
      rw [hf] at h2
      have hm : m = kp := by
        injection h2 with h3
        injection h3
      rw [hm] at hf
      have hmem := foldlMax_mem db.keyPairs none kp hf
      have hge := foldlMax_ge db.keyPairs none kp hf
      refine ⟨?_, hge.1⟩
      rcases hmem with hk | hk
      · exact hk
      · cases hk

/-- claim C1 (witness) — The amended statement evaluated on the seeded
two-key database: the lookup result (the `next` key, id 2) is a table row
with the maximal id. -/
theorem C1_witness :
    kpNextSeed ∈ dbTwoKeys.keyPairs ∧ ∀ x ∈ dbTwoKeys.keyPairs, x.id ≤ kpNextSeed.id :=
  C1_signing_key_is_most_recent dbTwoKeys kpNextSeed rfl

/-!
## C3 and C9: the logout handler
-/

/-- A session row used to exercise the logout handler. -/
def sessionS1 : UserSession :=
  { id := 1, sessionIdentifier := "sess-1", userId := 7 }

/-- A refresh token issued under session `sess-1`, not yet revoked. -/
def tokenT1 : RefreshToken :=
  { id := 1, sessionIdentifier := "sess-1", revoked := false }

/-- A database with one stored session and one live refresh token under it. -/
def dbLogout : Db :=
  { emptyDb with userSessions := [sessionS1], refreshTokens := [tokenT1] }

/-- claim C3 (counterexample) — A logout request whose session identifier
resolves to the stored session `sess-1` deletes that session row, but the
refresh token issued under `sess-1` is still present and still not
revoked after the handler responds: the claim that logout revokes every
refresh token issued under the session is false. -/
theorem C3_counterexample :
    (handleAccountLogoutGet "https://server"
      { sessionIdentifier := "sess-1", postLogoutRedirectUri := none }
      dbLogout).db.userSessions = [] ∧
    (handleAccountLogoutGet "https://server"
      { sessionIdentifier := "sess-1", postLogoutRedirectUri := none }
      dbLogout).db.refreshTokens =
      [{ id := 1, sessionIdentifier := "sess-1", revoked := false }] :=
  ⟨rfl, rfl⟩

/-- claim C3 (amended) — For every logout request carrying a session
identifier that resolves to a stored UserSession, the handler deletes
that UserSession row and clears the cookie session before responding
with a redirect to `/account/profile`; it performs no refresh-token
revocation (the refresh-token table is left exactly as it was). -/
theorem C3_logout_deletes_session_only (baseUrl : String) (req : LogoutRequest)
    (db : Db) (us : UserSession)
    (hlen : req.sessionIdentifier.length > 0)
    (hfind : db.userSessions.find?
      (fun s => s.sessionIdentifier == req.sessionIdentifier) = some us) :
    (∀ s ∈ (handleAccountLogoutGet baseUrl req db).db.userSessions, s.id ≠ us.id) ∧
    (handleAccountLogoutGet baseUrl req db).db.refreshTokens = db.refreshTokens ∧
    (handleAccountLogoutGet baseUrl req db).cookieSessionCleared = true ∧
    (handleAccountLogoutGet baseUrl req db).redirectLocation =
      baseUrl ++ "/account/profile" := by
  have hh : handleAccountLogoutGet baseUrl req db =
      { db := DeleteUserSession db us.id, cookieSessionCleared := true,
        redirectLocation := baseUrl ++ "/account/profile" } := by
    unfold handleAccountLogoutGet
    rw [if_pos hlen, getUserSessionBySessionIdentifier_ok, hfind]
  rw [hh]
  refine ⟨?_, rfl, rfl, rfl⟩
  intro s hs
  have hmem := List.mem_filter.mp hs
  simpa using hmem.2

/-- claim C3 (witness) — The amended statement evaluated on the concrete
one-session database: the session row is gone, the refresh-token table is
untouched, the cookie is cleared and the redirect targets
`/account/profile`. -/
theorem C3_witness :
    (∀ s ∈ (handleAccountLogoutGet "https://server"
        { sessionIdentifier := "sess-1", postLogoutRedirectUri := none }
        dbLogout).db.userSessions, s.id ≠ sessionS1.id) ∧
    (handleAccountLogoutGet "https://server"
        { sessionIdentifier := "sess-1", postLogoutRedirectUri := none }
        dbLogout).db.refreshTokens = dbLogout.refreshTokens ∧
    (handleAccountLogoutGet "https://server"
        { sessionIdentifier := "sess-1", postLogoutRedirectUri := none }
        dbLogout).cookieSessionCleared = true ∧
    (handleAccountLogoutGet "https://server"
        { sessionIdentifier := "sess-1", postLogoutRedirectUri := none }
        dbLogout).redirectLocation = "https://server" ++ "/account/profile" :=
  C3_logout_deletes_session_only "https://server"
    { sessionIdentifier := "sess-1", postLogoutRedirectUri := none }
    dbLogout sessionS1 (by decide) rfl

/-- claim C9 (counterexample) — A logout request supplying
`post_logout_redirect_uri=https://client.example/bye` is redirected to
`/account/profile` on the server's own base URL, not to the supplied URI:
the claim that the handler honours `post_logout_redirect_uri` is false. -/
theorem C9_counterexample :
    (handleAccountLogoutGet "https://server"
      { sessionIdentifier := "sess-1",
        postLogoutRedirectUri := some "https://client.example/bye" }
      dbLogout).redirectLocation = "https://server/account/profile" ∧
    (handleAccountLogoutGet "https://server"
      { sessionIdentifier := "sess-1",
        postLogoutRedirectUri := some "https://client.example/bye" }
      dbLogout).redirectLocation ≠ "https://client.example/bye" :=
  ⟨rfl, by decide⟩

/-- claim C9 (amended) — The logout handler ignores the
`post_logout_redirect_uri` parameter entirely: for every request and
every database state, the response redirects the user agent to
`baseUrl ++ "/account/profile"`. -/
theorem C9_logout_redirect_is_fixed (baseUrl : String) (req : LogoutRequest) (db : Db) :
    (handleAccountLogoutGet baseUrl req db).redirectLocation =
      baseUrl ++ "/account/profile" := rfl

/-!
## Which tables each compound operation touches
-/

/-- A successful `DeleteClientPermission` changes only the `clients`
table: codes, consents, redirect URIs and key pairs are untouched. -/
theorem deleteClientPermission_tables (faults : List Bool) (db : Db)
    (cid pid : Nat) (db2 : Db) (faults2 : List Bool)
    (h : DeleteClientPermission faults db cid pid = .ok (db2, faults2)) :
    db2.codes = db.codes ∧ db2.userConsents = db.userConsents ∧
    db2.redirectURIs = db.redirectURIs ∧ db2.keyPairs = db.keyPairs := by
  unfold DeleteClientPermission at h
  repeat' split at h
  all_goals first
    | (injection h; done)
    | (injection h with h1; injection h1 with ha hb; rw [← ha];
       exact ⟨rfl, rfl, rfl, rfl⟩)

/-- A successful `AddClientPermission` changes only the `clients` table. -/
theorem addClientPermission_tables (faults : List Bool) (db : Db)
    (cid pid : Nat) (db2 : Db) (faults2 : List Bool)
    (h : AddClientPermission faults db cid pid = .ok (db2, faults2)) :
    db2.codes = db.codes ∧ db2.userConsents = db.userConsents ∧
    db2.redirectURIs = db.redirectURIs ∧ db2.keyPairs = db.keyPairs := by
  unfold AddClientPermission at h
  repeat' split at h
  all_goals first
    | (injection h; done)
    | (injection h with h1; injection h1 with ha hb; rw [← ha];
       exact ⟨rfl, rfl, rfl, rfl⟩)

/-- The permission-detaching loop of `DeleteClient` changes only the
`clients` table. -/
theorem deleteClientPermissionsLoop_tables (cid : Nat) :
    ∀ (pids : List Nat) (faults : List Bool) (db db2 : Db) (faults2 : List Bool),
      deleteClientPermissionsLoop cid pids faults db = .ok (db2, faults2) →
      db2.codes = db.codes ∧ db2.userConsents = db.userConsents ∧
      db2.redirectURIs = db.redirectURIs ∧ db2.keyPairs = db.keyPairs := by
  intro pids
  induction pids with
  | nil =>
      intro faults db db2 faults2 h
      unfold deleteClientPermissionsLoop at h
      injection h with h1
      injection h1 with ha hb
      rw [← ha]
      exact ⟨rfl, rfl, rfl, rfl⟩
  | cons pid rest ih =>
      intro faults db db2 faults2 h
      unfold deleteClientPermissionsLoop at h
      split at h
      · injection h
      · rename_i x dbMid faultsMid heq
        have hfirst := deleteClientPermission_tables faults db cid pid dbMid faultsMid heq
        have hrest := ih faultsMid dbMid db2 faults2 h
        exact ⟨hrest.1.trans hfirst.1, hrest.2.1.trans hfirst.2.1,
               hrest.2.2.1.trans hfirst.2.2.1, hrest.2.2.2.trans hfirst.2.2.2⟩

/-- A successful `deleteClientRow` preserves every table except
`clients`, from which it removes every row with the client's id. -/
theorem deleteClientRow_spec (faults : List Bool) (db : Db) (cid : Nat) (db2 : Db)
    (h : deleteClientRow faults db cid = .ok db2) :
    db2.codes = db.codes ∧ db2.userConsents = db.userConsents ∧
    db2.redirectURIs = db.redirectURIs ∧ db2.keyPairs = db.keyPairs ∧
    ∀ cl ∈ db2.clients, cl.id ≠ cid := by
  unfold deleteClientRow at h
  split at h
  · injection h
  · injection h with h1
    rw [← h1]
    refine ⟨rfl, rfl, rfl, rfl, ?_⟩
    intro cl hcl
    have hm := List.mem_filter.mp hcl
    simpa using hm.2

/-- A successful detach-and-delete pass preserves codes, consents,
redirect URIs and key pairs, and leaves no client row with the given id. -/
theorem deleteClientDetach_spec (faults : List Bool) (db : Db) (cid : Nat)
    (client : Client) (db2 : Db)
    (h : deleteClientDetach faults db cid client = .ok db2) :
    db2.codes = db.codes ∧ db2.userConsents = db.userConsents ∧
    db2.redirectURIs = db.redirectURIs ∧ db2.keyPairs = db.keyPairs ∧
    ∀ cl ∈ db2.clients, cl.id ≠ cid := by
  unfold deleteClientDetach at h
  split at h
  · injection h
  · rename_i x dbMid faultsMid heq
    have hloop := deleteClientPermissionsLoop_tables cid client.permissionIds
      faults db dbMid faultsMid heq
    have hrow := deleteClientRow_spec faultsMid dbMid cid db2 h
    exact ⟨hrow.1.trans hloop.1, hrow.2.1.trans hloop.2.1,
           hrow.2.2.1.trans hloop.2.2.1, hrow.2.2.2.1.trans hloop.2.2.2,
           hrow.2.2.2.2⟩

/-- A successful `deleteClientFetch` preserves codes, consents, redirect
URIs and key pairs, and leaves no client row with the given id. -/
theorem deleteClientFetch_spec (faults : List Bool) (db : Db) (cid : Nat) (db2 : Db)
    (h : deleteClientFetch faults db cid = .ok db2) :
    db2.codes = db.codes ∧ db2.userConsents = db.userConsents ∧
    db2.redirectURIs = db.redirectURIs ∧ db2.keyPairs = db.keyPairs ∧
    ∀ cl ∈ db2.clients, cl.id ≠ cid := by
  unfold deleteClientFetch at h
  split at h
  · injection h
  · injection h
  · rename_i x client heq
    exact deleteClientDetach_spec (faultTail faults) db cid client db2 h

/-- A successful `deleteClientCodes` removes every code of the client,
preserves consents, redirect URIs and key pairs, and leaves no client row
with the given id. -/
theorem deleteClientCodes_spec (faults : List Bool) (db : Db) (cid : Nat) (db2 : Db)
    (h : deleteClientCodes faults db cid = .ok db2) :
    (∀ c ∈ db2.codes, c.clientId ≠ cid) ∧ db2.userConsents = db.userConsents ∧
    db2.redirectURIs = db.redirectURIs ∧ db2.keyPairs = db.keyPairs ∧
    ∀ cl ∈ db2.clients, cl.id ≠ cid := by
  unfold deleteClientCodes at h
  split at h
  · injection h
  · have hs := deleteClientFetch_spec (faultTail faults) _ cid db2 h
    refine ⟨?_, hs.2.1, hs.2.2.1, hs.2.2.2.1, hs.2.2.2.2⟩
    intro c hc
    rw [hs.1] at hc
    have hm := List.mem_filter.mp hc
    simpa using hm.2

/-- A successful `deleteClientRedirectURIs` removes every redirect URI
and code of the client, preserves consents and key pairs, and leaves no
client row with the given id. -/
theorem deleteClientRedirectURIs_spec (faults : List Bool) (db : Db) (cid : Nat) (db2 : Db)
    (h : deleteClientRedirectURIs faults db cid = .ok db2) :
    (∀ c ∈ db2.codes, c.clientId ≠ cid) ∧ db2.userConsents = db.userConsents ∧
    (∀ r ∈ db2.redirectURIs, r.clientId ≠ cid) ∧ db2.keyPairs = db.keyPairs ∧
    ∀ cl ∈ db2.clients, cl.id ≠ cid := by
  unfold deleteClientRedirectURIs at h
  split at h
  · injection h
  · have hs := deleteClientCodes_spec (faultTail faults) _ cid db2 h
    refine ⟨hs.1, hs.2.1, ?_, hs.2.2.2.1, hs.2.2.2.2⟩
    intro r hr
    rw [hs.2.2.1] at hr
    have hm := List.mem_filter.mp hr
    simpa using hm.2

/-- A successful `DeleteClient` removes every code, consent and redirect
URI of the client and the client row, and never touches `key_pairs`. -/
theorem deleteClient_spec (faults : List Bool) (db : Db) (cid : Nat) (db2 : Db)
    (h : DeleteClient faults db cid = .ok db2) :
    (∀ c ∈ db2.codes, c.clientId ≠ cid) ∧
    (∀ u ∈ db2.userConsents, u.clientId ≠ cid) ∧
    (∀ r ∈ db2.redirectURIs, r.clientId ≠ cid) ∧
    db2.keyPairs = db.keyPairs ∧
    ∀ cl ∈ db2.clients, cl.id ≠ cid := by
  unfold DeleteClient at h
  split at h
  · injection h
  · have hs := deleteClientRedirectURIs_spec (faultTail faults) _ cid db2 h
    refine ⟨hs.1, ?_, hs.2.2.1, hs.2.2.2.1, hs.2.2.2.2⟩
    intro u hu
    rw [hs.2.1] at hu
    have hm := List.mem_filter.mp hu
    simpa using hm.2

/-!
## C8: DeleteClient removes every row referencing the client
-/

/-- claim C8 — When `DeleteClient` returns without error, no row
referencing the deleted client remains: the `codes`, `user_consents` and
`redirect_uris` tables contain no row with that client id, and the client
row itself is gone. -/
theorem C8_delete_client_cascades (faults : List Bool) (db : Db) (cid : Nat) (db2 : Db)
    (h : DeleteClient faults db cid = .ok db2) :
    (∀ c ∈ db2.codes, c.clientId ≠ cid) ∧
    (∀ u ∈ db2.userConsents, u.clientId ≠ cid) ∧
    (∀ r ∈ db2.redirectURIs, r.clientId ≠ cid) ∧
    (∀ cl ∈ db2.clients, cl.id ≠ cid) := by
  have hs := deleteClient_spec faults db cid db2 h
  exact ⟨hs.1, hs.2.1, hs.2.2.1, hs.2.2.2.2⟩

/-- A client row (id 5) with one attached permission, about to be deleted. -/
def clientC8 : Client :=
  { id := 5, clientIdentifier := "doomed-client", enabled := true,
    consentRequired := true, isPublic := false, clientSecretEncrypted := "ct",
    permissionIds := [9] }

/-- The permission attached to `clientC8`. -/
def permissionC8 : Permission :=
  { id := 9, permissionIdentifier := "perm-9", resourceId := 1 }

/-- A database holding a client (id 5) together with a code, a consent, a
redirect URI and an attached permission, all referencing it. -/
def dbC8 : Db :=
  { emptyDb with
      clients := [clientC8],
      permissions := [permissionC8],
      codes := [{ id := 1, code := "hash-1", clientId := 5, userId := 1, used := false }],
      userConsents := [{ id := 1, userId := 1, clientId := 5, scope := "openid" }],
      redirectURIs := [{ id := 1, clientId := 5, uri := "https://cb.example" }] }

/-- The state `DeleteClient` leaves behind on `dbC8`: only the permission
row survives. -/
def dbC8After : Db :=
  { emptyDb with permissions := [permissionC8] }

/-- claim C8 (witness) — `DeleteClient` evaluated on a concrete database
holding a client (id 5) with one code, one consent, one redirect URI and
one attached permission, under an all-success fault schedule: the result
state has no row referencing client 5. -/
theorem C8_witness :
    (∀ c ∈ dbC8After.codes, c.clientId ≠ 5) ∧
    (∀ u ∈ dbC8After.userConsents, u.clientId ≠ 5) ∧
    (∀ r ∈ dbC8After.redirectURIs, r.clientId ≠ 5) ∧
    (∀ cl ∈ dbC8After.clients, cl.id ≠ 5) :=
  C8_delete_client_cascades [] dbC8 5 dbC8After (by rfl)

/-!
## The transition system over the repository operations in src

`Step` relates a database state to the state after one mutating method of
the data package; compound operations with fault schedules step only when
they return without error (a failed compound operation leaves a prefix of
the same per-table updates, none of which writes `key_pairs` either).
-/

/-- One database mutation through a repository method of the data package. -/
inductive Step : Db → Db → Prop where
  | createCode (db : Db) (c : Code) : Step db (CreateCode db c)
  | updateCode (db : Db) (c : Code) : Step db (UpdateCode db c)
  | createUser (db : Db) (u : User) : Step db (CreateUser db u)
  | updateUser (db : Db) (u : User) : Step db (UpdateUser db u)
  | createClient (db : Db) (c : Client) : Step db (CreateClient db c)
  | updateClient (db : Db) (c : Client) : Step db (UpdateClient db c)
  | createUserSession (db : Db) (s : UserSession) : Step db (CreateUserSession db s)
  | updateUserSession (db : Db) (s : UserSession) : Step db (UpdateUserSession db s)
  | deleteUserSession (db : Db) (i : Nat) : Step db (DeleteUserSession db i)
  | saveUserConsent (db : Db) (uc : UserConsent) : Step db (SaveUserConsent db uc)
  | deleteUserConsent (db : Db) (i : Nat) : Step db (DeleteUserConsent db i)
  | createRedirectURI (db : Db) (r : RedirectURI) : Step db (CreateRedirectURI db r)
  | deleteRedirectURI (db : Db) (i : Nat) : Step db (DeleteRedirectURI db i)
  | createPermission (db : Db) (p : Permission) : Step db (CreatePermission db p)
  | updatePermission (db : Db) (p : Permission) : Step db (UpdatePermission db p)
  | deletePermission (db : Db) (i : Nat) : Step db (DeletePermission db i)
  | addClientPermission (db : Db) (faults : List Bool) (cid pid : Nat)
      (db2 : Db) (faults2 : List Bool) :
      AddClientPermission faults db cid pid = .ok (db2, faults2) → Step db db2
  | removeClientPermission (db : Db) (faults : List Bool) (cid pid : Nat)
      (db2 : Db) (faults2 : List Bool) :
      DeleteClientPermission faults db cid pid = .ok (db2, faults2) → Step db db2
  | deleteClient (db : Db) (faults : List Bool) (cid : Nat) (db2 : Db) :
      DeleteClient faults db cid = .ok db2 → Step db db2

/-- Zero or more repository operations. -/
inductive Reachable : Db → Db → Prop where
  | refl (db : Db) : Reachable db db
  | tail {a b c : Db} : Reachable a b → Step b c → Reachable a c

/-- No repository operation of the data package writes the `key_pairs`
table (only `seed` does). -/
theorem step_keyPairs {a b : Db} (h : Step a b) : b.keyPairs = a.keyPairs := by
  cases h with
  | createCode c => rfl
  | updateCode c => rfl
  | createUser u => rfl
  | updateUser u => rfl
  | createClient c => rfl
  | updateClient c => rfl
  | createUserSession s => rfl
  | updateUserSession s => rfl
  | deleteUserSession i => rfl
  | saveUserConsent uc =>
      unfold SaveUserConsent
      split <;> rfl
  | deleteUserConsent i => rfl
  | createRedirectURI r => rfl
  | deleteRedirectURI i => rfl
  | createPermission p => rfl
  | updatePermission p => rfl
  | deletePermission i => rfl
  | addClientPermission f1 f2 f3 f4 f5 hok =>
      exact (addClientPermission_tables _ _ _ _ _ _ hok).2.2.2
  | removeClientPermission f1 f2 f3 f4 f5 hok =>
      exact (deleteClientPermission_tables _ _ _ _ _ _ hok).2.2.2
  | deleteClient f1 f2 f3 hok =>
      exact (deleteClient_spec _ _ _ _ hok).2.2.2.1

/-- Repository operations never change the `key_pairs` table. -/
theorem reachable_keyPairs {a b : Db} (h : Reachable a b) :
    b.keyPairs = a.keyPairs := by
  induction h with
  | refl => rfl
  | tail hr hs ih => exact (step_keyPairs hs).trans ih

/-!
## C7: the KeyPair lifecycle invariant
-/

/-- claim C7 — Seeding an empty database creates exactly two KeyPairs:
one `current` and one `next`, both RSA/RS256, with distinct kids (the two
kid draws being distinct); and in every database state reachable from the
seeded state through the repository operations in src, exactly one KeyPair
has state `current`, at most one has state `next`, and every KeyPair's
state is one of current/next/previous. -/
theorem C7_keypair_lifecycle (hashPassword : String → String)
    (encryptText : String → String → String) (rand : SeedRand) (env : SeedEnv)
    (db2 : Db)
    (hreach : Reachable (seed hashPassword encryptText rand env emptyDb) db2)
    (hkid : rand.kid1 ≠ rand.kid2) :
    ((db2.keyPairs.filter (fun k => k.state == "current")).length = 1 ∧
     (db2.keyPairs.filter (fun k => k.state == "next")).length ≤ 1 ∧
     (∀ k ∈ db2.keyPairs, k.state = "current" ∨ k.state = "next" ∨ k.state = "previous")) ∧
    db2.keyPairs = [seedKeyPairCurrent rand, seedKeyPairNext rand] ∧
    (seedKeyPairCurrent rand).state = "current" ∧
    (seedKeyPairNext rand).state = "next" ∧
    (seedKeyPairCurrent rand).keyType = "RSA" ∧
    (seedKeyPairNext rand).keyType = "RSA" ∧
    (seedKeyPairCurrent rand).algorithm = "RS256" ∧
    (seedKeyPairNext rand).algorithm = "RS256" ∧
    (seedKeyPairCurrent rand).keyIdentifier ≠ (seedKeyPairNext rand).keyIdentifier := by
  have hkp : db2.keyPairs = [seedKeyPairCurrent rand, seedKeyPairNext rand] := by
    have h1 := reachable_keyPairs hreach
    rw [h1]
    rfl
  refine ⟨?_, hkp, rfl, rfl, rfl, rfl, rfl, rfl, hkid⟩
  rw [hkp]
  refine ⟨rfl, le_of_eq rfl, ?_⟩
  intro k hk
  rcases List.mem_cons.mp hk with hc | hk2
  · rw [hc]
    exact Or.inl rfl
  · rcases List.mem_cons.mp hk2 with hn | hk3
    · rw [hn]
      exact Or.inr (Or.inl rfl)
    · exact absurd hk3 (List.not_mem_nil k)

/-- A concrete password-hash stand-in used to evaluate theorems. -/
def hashPasswordW (s : String) : String := String.append "hash:" s

/-- A concrete reversible cipher used to evaluate theorems: prepend the
key to the plaintext. -/
def encryptTextW (plain key : String) : String :=
  String.mk (key.data ++ plain.data)

/-- The matching decryption: drop the key prefix. -/
def decryptTextW (cipher key : String) : String :=
  String.mk (cipher.data.drop key.data.length)

/-- The concrete cipher is reversible. -/
theorem encryptTextW_roundtrip (plain key : String) :
    decryptTextW (encryptTextW plain key) key = plain := by
  show String.mk ((key.data ++ plain.data).drop key.data.length) = plain
  rw [List.drop_left]

/-- Concrete random draws for evaluating the seeder. -/
def randW : SeedRand :=
  { encryptionKey := "aes-key", clientSecret := "secret-1",
    adminSubject := "subj-1", kid1 := "kid-a", kid2 := "kid-b" }

/-- A seeding environment with both admin variables empty. -/
def envW : SeedEnv :=
  { baseUrl := "https://server", adminEmail := "", adminPassword := "" }

/-- claim C7 (witness) — The lifecycle statement evaluated on the state
seeded with concrete draws (taking zero repository operations). -/
theorem C7_witness :
    (((seed hashPasswordW encryptTextW randW envW emptyDb).keyPairs.filter
        (fun k => k.state == "current")).length = 1 ∧
     ((seed hashPasswordW encryptTextW randW envW emptyDb).keyPairs.filter
        (fun k => k.state == "next")).length ≤ 1 ∧
     (∀ k ∈ (seed hashPasswordW encryptTextW randW envW emptyDb).keyPairs,
        k.state = "current" ∨ k.state = "next" ∨ k.state = "previous")) ∧
    (seed hashPasswordW encryptTextW randW envW emptyDb).keyPairs =
      [seedKeyPairCurrent randW, seedKeyPairNext randW] ∧
    (seedKeyPairCurrent randW).state = "current" ∧
    (seedKeyPairNext randW).state = "next" ∧
    (seedKeyPairCurrent randW).keyType = "RSA" ∧
    (seedKeyPairNext randW).keyType = "RSA" ∧
    (seedKeyPairCurrent randW).algorithm = "RS256" ∧
    (seedKeyPairNext randW).algorithm = "RS256" ∧
    (seedKeyPairCurrent randW).keyIdentifier ≠ (seedKeyPairNext randW).keyIdentifier :=
  C7_keypair_lifecycle hashPasswordW encryptTextW randW envW _
    (Reachable.refl _) (by decide)

/-!
## C10: admin defaults at seeding time
-/

/-- claim C10 — Seeding an empty database with empty `ADMIN_EMAIL` and
`ADMIN_PASSWORD` environment variables succeeds and creates exactly one
user: the admin, with email `admin@example.com`, password hash of
`admin123`, account enabled and email marked verified. -/
theorem C10_seed_admin_defaults (hashPassword : String → String)
    (encryptText : String → String → String) (rand : SeedRand) (env : SeedEnv)
    (hemail : env.adminEmail = "") (hpwd : env.adminPassword = "") :
    (seed hashPassword encryptText rand env emptyDb).users =
      [seedAdminUser hashPassword rand env] ∧
    (seedAdminUser hashPassword rand env).email = "admin@example.com" ∧
    (seedAdminUser hashPassword rand env).passwordHash = hashPassword "admin123" ∧
    (seedAdminUser hashPassword rand env).enabled = true ∧
    (seedAdminUser hashPassword rand env).emailVerified = true := by
  refine ⟨rfl, ?_, ?_, rfl, rfl⟩
  · show (if env.adminEmail.length == 0 then "admin@example.com" else env.adminEmail) =
      "admin@example.com"
    rw [hemail]
    rfl
  · show hashPassword
      (if env.adminPassword.length == 0 then "admin123" else env.adminPassword) =
      hashPassword "admin123"
    rw [hpwd]
    rfl

/-- claim C10 (witness) — The default-admin statement evaluated on the
concrete seeding environment with both variables empty. -/
theorem C10_witness :
    (seed hashPasswordW encryptTextW randW envW emptyDb).users =
      [seedAdminUser hashPasswordW randW envW] ∧
    (seedAdminUser hashPasswordW randW envW).email = "admin@example.com" ∧
    (seedAdminUser hashPasswordW randW envW).passwordHash = hashPasswordW "admin123" ∧
    (seedAdminUser hashPasswordW randW envW).enabled = true ∧
    (seedAdminUser hashPasswordW randW envW).emailVerified = true :=
  C10_seed_admin_defaults hashPasswordW encryptTextW randW envW rfl rfl

/-!
## C4: how the client secret is stored
-/

/-- `getClientSecret` (integration tests common.go): recover the client's
secret by decrypting the stored `ClientSecretEncrypted` with the settings
AES key.  `lib.DecryptText` lives outside src and is an opaque parameter. -/
def getClientSecret (decryptText : String → String → String)
    (client : Client) (aesKey : String) : String :=
  decryptText client.clientSecretEncrypted aesKey

/-- claim C4 (counterexample) — The seeded `system-website` client's
secret at rest is the AES ciphertext of the plaintext secret, and
`getClientSecret` recovers the plaintext by reversible decryption with
the stored AES key: the claim that the secret is stored as a bcrypt hash
and never recovered by reversible decryption is false. -/
theorem C4_counterexample :
    (seedSystemClient encryptTextW randW).clientSecretEncrypted =
      encryptTextW randW.clientSecret randW.encryptionKey ∧
    getClientSecret decryptTextW (seedSystemClient encryptTextW randW)
      randW.encryptionKey = "secret-1" ∧
    (seedSystemClient encryptTextW randW).clientSecretEncrypted ≠ "secret-1" :=
  ⟨rfl, rfl, by decide⟩

/-- claim C4 (amended) — The client secret is stored at rest reversibly
encrypted (`ClientSecretEncrypted = EncryptText(secret, aesKey)`), and the
plaintext is recovered by decryption with the AES key, for every cipher
satisfying the decrypt-encrypt round trip. -/
theorem C4_secret_stored_reversibly
    (encryptText decryptText : String → String → String)
    (hround : ∀ p k, decryptText (encryptText p k) k = p)
    (rand : SeedRand) :
    (seedSystemClient encryptText rand).clientSecretEncrypted =
      encryptText rand.clientSecret rand.encryptionKey ∧
    getClientSecret decryptText (seedSystemClient encryptText rand)
      rand.encryptionKey = rand.clientSecret :=
  ⟨rfl, hround rand.clientSecret rand.encryptionKey⟩

/-- claim C4 (witness) — The amended statement evaluated with the
concrete reversible cipher and concrete draws. -/
theorem C4_witness :
    (seedSystemClient encryptTextW randW).clientSecretEncrypted =
      encryptTextW randW.clientSecret randW.encryptionKey ∧
    getClientSecret decryptTextW (seedSystemClient encryptTextW randW)
      randW.encryptionKey = randW.clientSecret :=
  C4_secret_stored_reversibly encryptTextW decryptTextW encryptTextW_roundtrip randW

/-!
## C2: authorization codes are stored hashed

The Code Issuer and the token-endpoint handler live outside src; their
persistence and lookup behaviour is modelled from the spec ("Store
SHA-256(code) as code-hash; never persist the plaintext", "Look up code by
SHA-256(presented_code) and used=false"), which the integration tests in
src exercise through `GetCodeByCodeHash(lib.HashString(codeVal), false)`.
`lib.HashString` (SHA-256) is outside src and enters as the opaque
function `h`.  The repository lookup `GetCode` itself is embedded from
part_003.
-/

/-- Modelled from the spec: the Code row the Code Issuer persists — the
`code` column holds `h plainCode`, never `plainCode`, alongside the
binding fields and `used = false`. -/
def createAuthCodeRow (h : String → String) (plainCode : String)
    (clientId userId rowId : Nat) : Code :=
  { id := rowId, code := h plainCode, clientId := clientId,
    userId := userId, used := false }

/-- Modelled from the spec: issue one authorization code per plaintext,
each persisted through the repository's `CreateCode`. -/
def issueCodes (h : String → String) (clientId userId : Nat) :
    List String → Db → Db
  | [], db => db
  | p :: rest, db =>
      issueCodes h clientId userId rest
        (CreateCode db (createAuthCodeRow h p clientId userId (db.codes.length + 1)))

/-- Modelled from the spec: the token endpoint's lookup of a presented
code — `GetCode` (from src) queried at the hash of the presented code and
`used = false`. -/
def lookupPresentedCode (h : String → String) (db : Db) (presented : String) :
    Except String (Option Code) :=
  GetCode false db (h presented) false

/-- Every code row after issuing is either inherited or carries the hash
of one of the issued plaintexts. -/
theorem issueCodes_codes (h : String → String) (clientId userId : Nat) :
    ∀ (ps : List String) (db : Db) (c : Code),
      c ∈ (issueCodes h clientId userId ps db).codes →
      c ∈ db.codes ∨ ∃ p ∈ ps, c.code = h p := by
  intro ps
  induction ps with
  | nil =>
      intro db c hc
      exact Or.inl hc
  | cons p rest ih =>
      intro db c hc
      rcases ih _ c hc with hmem | ⟨q, hq, hcq⟩
      · rcases List.mem_append.mp hmem with h1 | h2
        · exact Or.inl h1
        · right
          refine ⟨p, List.mem_cons_self p rest, ?_⟩
          have hrow : c = createAuthCodeRow h p clientId userId (db.codes.length + 1) := by
            simpa using h2
          rw [hrow]
          rfl
      · exact Or.inr ⟨q, List.mem_cons_of_mem p hq, hcq⟩

/-- claim C2 — Codes at rest are hashes: starting from a database with no
code rows, after issuing any list of plaintext codes every persisted code
row stores the hash of one of the issued plaintexts; no row stores a
plaintext (whenever no issued plaintext collides with a hash value); and
the token-endpoint lookup queries the repository exactly by the hash of
the presented code together with `used = false`. -/
theorem C2_codes_stored_hashed (h : String → String) (ps : List String)
    (clientId userId : Nat) (db0 : Db) (hnone : db0.codes = [])
    (hnp : ∀ p ∈ ps, ∀ q ∈ ps, h p ≠ q) :
    (∀ c ∈ (issueCodes h clientId userId ps db0).codes, ∃ p ∈ ps, c.code = h p) ∧
    (∀ c ∈ (issueCodes h clientId userId ps db0).codes, ∀ p ∈ ps, c.code ≠ p) ∧
    (∀ presented : String,
      lookupPresentedCode h (issueCodes h clientId userId ps db0) presented =
        .ok ((issueCodes h clientId userId ps db0).codes.find?
          (fun c => c.code == h presented && c.used == false))) := by
  have hall : ∀ c ∈ (issueCodes h clientId userId ps db0).codes, ∃ p ∈ ps, c.code = h p := by
    intro c hc
    rcases issueCodes_codes h clientId userId ps db0 c hc with hmem | hex
    · rw [hnone] at hmem
      exact absurd hmem (List.not_mem_nil c)
    · exact hex
  refine ⟨hall, ?_, ?_⟩
  · intro c hc p hp
    rcases hall c hc with ⟨q, hq, hcq⟩
    rw [hcq]
    exact hnp q hq p hp
  · intro presented
    exact getCode_ok _ _ _

/-- A concrete hash stand-in for evaluating the code-hashing statement. -/
def hashStringW (s : String) : String := String.append "sha256:" s

/-- claim C2 (witness) — The code-hashing statement evaluated for one
issued plaintext `mycode` on the empty database with the concrete hash. -/
theorem C2_witness :
    (∀ c ∈ (issueCodes hashStringW 1 1 ["mycode"] emptyDb).codes,
      ∃ p ∈ ["mycode"], c.code = hashStringW p) ∧
    (∀ c ∈ (issueCodes hashStringW 1 1 ["mycode"] emptyDb).codes,
      ∀ p ∈ ["mycode"], c.code ≠ p) ∧
    (∀ presented : String,
      lookupPresentedCode hashStringW (issueCodes hashStringW 1 1 ["mycode"] emptyDb) presented =
        .ok ((issueCodes hashStringW 1 1 ["mycode"] emptyDb).codes.find?
          (fun c => c.code == hashStringW presented && c.used == false))) :=
  C2_codes_stored_hashed hashStringW ["mycode"] 1 1 emptyDb rfl (by decide)

/-!
## C6: the issue_code redirect

The Code Issuer and the authorize handler live outside src; the redirect
they produce is modelled from the spec ("Authorization-code redirect
format: `?code=<128-char>&state=<echoed>`", "Generate a 128-character
cryptographically random code"), which the integration tests in src check
via `getCodeAndStateFromUrl` (`assert.Equal(t, 128, len(code))` and
`state` echoed).
-/

/-- Modelled from the spec: the Code Issuer draws a 128-character random
code from a stream of random characters. -/
def generateRandomCode (rand : List Char) : String :=
  String.mk (rand.take 128)

/-- Modelled from the spec: the query parameters of the 302 Location the
authorize pipeline sends on `issue_code` — the generated `code` and the
echoed `state`. -/
def issueCodeRedirectParams (rand : List Char) (state : String) :
    List (String × String) :=
  [("code", generateRandomCode rand), ("state", state)]

/-- `getCodeAndStateFromUrl` (integration tests): read a query parameter
of the redirect Location. -/
def getParam (params : List (String × String)) (key : String) : Option String :=
  (params.find? (fun p => p.1 == key)).map (fun p => p.2)

/-- claim C6 — The issue_code redirect carries a `code` parameter of
exactly 128 characters (given at least 128 random characters to draw
from) and a `state` parameter equal, character for character, to the
state the client supplied. -/
theorem C6_redirect_code_and_state (rand : List Char) (state : String)
    (hlen : 128 ≤ rand.length) :
    getParam (issueCodeRedirectParams rand state) "code" =
      some (generateRandomCode rand) ∧
    (generateRandomCode rand).length = 128 ∧
    getParam (issueCodeRedirectParams rand state) "state" = some state := by
  refine ⟨rfl, ?_, rfl⟩
  show (rand.take 128).length = 128
  rw [List.length_take]
  exact Nat.min_eq_left hlen

/-- claim C6 (witness) — The redirect statement evaluated on a concrete
stream of 128 random characters and the state `a1b2c3` from the
integration tests. -/
theorem C6_witness :
    getParam (issueCodeRedirectParams (List.replicate 128 'x') "a1b2c3") "code" =
      some (generateRandomCode (List.replicate 128 'x')) ∧
    (generateRandomCode (List.replicate 128 'x')).length = 128 ∧
    getParam (issueCodeRedirectParams (List.replicate 128 'x') "a1b2c3") "state" =
      some "a1b2c3" :=
  C6_redirect_code_and_state (List.replicate 128 'x') "a1b2c3" (by simp)

end Goiabada
